import Mathlib

/-!
Verification of the question-to-answer pipeline of the management-insight
chatbot (`core.py`).  The Python source is shallowly embedded: pure string
helpers become Lean functions on `String` / `List Char`, the effectful steps
(planner calls, the analytical engine, the insight predictor, `time.sleep`)
become explicit oracle parameters, and exceptions become `Except` values.
Traces (number of planner calls, executor invocations, language-model insight
calls, and seconds slept) are returned alongside results so that invocation
and retry properties can be stated.
-/

namespace Chatbot

/-! ## Python string primitives -/

/-- Characters treated as whitespace by Python `str.strip()`. -/
def isPySpace (c : Char) : Bool :=
  c = ' ' || c = '\t' || c = '\n' || c = '\r' || c = '\x0b' || c = '\x0c'

/-- Python `str.strip()`: drop leading and trailing whitespace. -/
def pyStrip (l : List Char) : List Char :=
  List.rdropWhile isPySpace (l.dropWhile isPySpace)

/-- Python `str.lower()` (ASCII case folding, which covers every cased
character appearing in the embedded messages). -/
def pyLower (s : String) : String :=
  String.mk (s.toList.map Char.toLower)

/-- Does `hay` contain `pat` as a contiguous substring?  Models Python's
`pat in hay`. -/
def listHasSub (pat : List Char) : List Char → Bool
  | [] => pat.isEmpty
  | c :: t => pat.isPrefixOf (c :: t) || listHasSub pat t

/-- Python `pat in s` on strings. -/
def strContains (s pat : String) : Bool :=
  listHasSub pat.toList s.toList

/-! ## `clean_sql` (core.py lines 136-146)

```python
def clean_sql(sql: str) -> str:
    s = sql.strip()
    if s.startswith("```"):
        s = re.sub(r"^```[a-zA-Z0-9_]*\n?", "", s)
        if s.endswith("```"):
            s = s[:-3]
    return s.strip()
```
-/

/-- The fenced-code marker, three backticks. -/
def fenceMark : List Char := ['`', '`', '`']

/-- Characters matched by the language-tag class `[a-zA-Z0-9_]`. -/
def isLangChar (c : Char) : Bool :=
  c.isAlphanum || c = '_'

/-- One application of `re.sub(r"^```[a-zA-Z0-9_]*\n?", "", s)` to a string
that starts with the fence: remove the three backticks, then the maximal
run of language-tag characters, then one optional newline. -/
def dropFenceHeader : List Char → List Char
  | '`' :: '`' :: '`' :: rest =>
    let r := rest.dropWhile isLangChar
    match r with
    | '\n' :: t => t
    | _ => r
  | l => l

/-- `if s.endswith("```"): s = s[:-3]`. -/
def fenceTrim (l : List Char) : List Char :=
  if fenceMark.isSuffixOf l then l.take (l.length - 3) else l

/-- Embedding of `clean_sql` on character lists. -/
def cleanSqlL (sql : List Char) : List Char :=
  if fenceMark.isPrefixOf (pyStrip sql) then
    pyStrip (fenceTrim (dropFenceHeader (pyStrip sql)))
  else
    pyStrip (pyStrip sql)

/-- Embedding of `clean_sql` on strings. -/
def clean_sql (sql : String) : String :=
  String.mk (cleanSqlL sql.toList)

/-! ### Strip/idempotence lemmas -/

/-- A list that `dropWhile` leaves unchanged also leaves every one of its
prefixes unchanged (both are either empty or start with the same
non-matching head). -/
theorem dropWhile_eq_self_of_isPrefix {p : Char → Bool} {m l : List Char}
    (hm : m.dropWhile p = m) (hl : l <+: m) : l.dropWhile p = l := by
  cases l with
  | nil => rfl
  | cons a t =>
    obtain ⟨s, hs⟩ := hl
    subst hs
    by_cases hpa : p a = true
    · exfalso
      rw [List.cons_append, List.dropWhile_cons, if_pos hpa] at hm
      have hlen := congrArg List.length hm
      have hle := List.IsSuffix.length_le (List.dropWhile_suffix (l := t ++ s) p)
      simp only [List.length_cons, List.length_append] at hlen hle
      omega
    · rw [List.dropWhile_cons, if_neg hpa]

/-- `pyStrip` is idempotent. -/
theorem pyStrip_idem (l : List Char) : pyStrip (pyStrip l) = pyStrip l := by
  unfold pyStrip
  have h1 : (l.dropWhile isPySpace).dropWhile isPySpace = l.dropWhile isPySpace :=
    List.dropWhile_idempotent _ _
  have h2 : (List.rdropWhile isPySpace (l.dropWhile isPySpace)).dropWhile isPySpace
      = List.rdropWhile isPySpace (l.dropWhile isPySpace) :=
    dropWhile_eq_self_of_isPrefix h1 ( List.rdropWhile_prefix _ _)
  rw [h2, List.rdropWhile_idempotent]

/-- The result of `cleanSqlL` is a fixed point of `pyStrip`. -/
theorem pyStrip_cleanSqlL (l : List Char) : pyStrip (cleanSqlL l) = cleanSqlL l := by
  unfold cleanSqlL
  split
  · exact pyStrip_idem _
  · exact pyStrip_idem _

/-- Helper for C4: `cleanSqlL` is idempotent whenever its result does not
start with a fence marker again. -/
theorem cleanSqlL_idem_of_not_fenced (x : List Char)
    (h : fenceMark.isPrefixOf (cleanSqlL x) = false) :
    cleanSqlL (cleanSqlL x) = cleanSqlL x := by
  conv_lhs => rw [cleanSqlL]
  rw [pyStrip_cleanSqlL, h]
  simp only [Bool.false_eq_true, if_false]
  rw [pyStrip_cleanSqlL]

/-- C4 (counterexample): the claim "`clean_sql(clean_sql(x)) == clean_sql(x)`
for every string input" fails on the nested-looking fence input
`"``` ``` ```"`: one application yields `"```"`, a second application
yields `""`. -/
theorem c4_counterexample :
    clean_sql (clean_sql "``` ``` ```") ≠ clean_sql "``` ``` ```" := by
  decide

/-- C4 (amended): `clean_sql` is idempotent on every input whose cleaned
form does not itself start with a fence marker (in particular on inputs
with no fences and on single-fenced inputs); on nested-looking fences whose
first cleaning exposes a new leading fence it can strip again. -/
theorem c4_clean_sql_idem_of_unfenced (s : String)
    (h : fenceMark.isPrefixOf (clean_sql s).toList = false) :
    clean_sql (clean_sql s) = clean_sql s :=
  congrArg String.mk (cleanSqlL_idem_of_not_fenced s.toList h)

/-- C4 (witness): the amended idempotence theorem applied to a concrete
single-fenced input. -/
theorem c4_witness :
    fenceMark.isPrefixOf (clean_sql "```sql\nSELECT 1;\n```").toList = false
    ∧ clean_sql (clean_sql "```sql\nSELECT 1;\n```") = clean_sql "```sql\nSELECT 1;\n```" :=
  ⟨by decide, c4_clean_sql_idem_of_unfenced "```sql\nSELECT 1;\n```" (by decide)⟩

/-! ## Planner model (core.py lines 761-813)

`ask_bot_core` calls `planner(question)` up to `max_retries = 3` times.  A
call either raises (modelled as `PlannerResp.raised msg`) or returns a plan
object whose `sql`/`intent` attributes may be absent or empty (modelled as
`Option String`, with `some ""` for an empty attribute).  A missing/empty
`sql` raises `ValueError("LLM response missing 'sql' field")`; a
missing/empty `intent` is defaulted to `"unknown"` without any retry.  The
retry branch fires when the message contains `"JSONAdapter failed to
parse"` or its lowercasing contains `"missing"`, and only on a non-final
attempt; each retry sleeps one second before resubmission.
-/

/-- The `plan` object returned by one successful planner call. -/
structure PlanObj where
  sql : Option String
  intent : Option String
deriving DecidableEq

/-- Outcome of one `planner(question)` call: a plan object, or a raised
exception carrying a message. -/
inductive PlannerResp where
  | ok (p : PlanObj)
  | raised (msg : String)
deriving DecidableEq

/-- An apostrophe, kept out of string literals. -/
def squote : String := String.mk [Char.ofNat 39]

/-- The message of `ValueError("LLM response missing 'sql' field")`. -/
def missingSqlMsg : String :=
  "LLM response missing " ++ squote ++ "sql" ++ squote ++ " field"

/-- The validation block inside the retry loop: reject a missing/empty
`sql`, default a missing/empty `intent` to `"unknown"`. -/
def validatePlan (p : PlanObj) : Except String PlanObj :=
  if p.sql.getD "" = "" then
    .error missingSqlMsg
  else
    .ok { p with intent := if p.intent.getD "" = "" then some "unknown" else p.intent }

/-- One loop iteration body: the planner call followed by validation. -/
def planAttempt : PlannerResp → Except String PlanObj
  | .raised m => .error m
  | .ok p => validatePlan p

/-- The retry predicate:
`"JSONAdapter failed to parse" in error_msg or "missing" in error_msg.lower()`. -/
def isParseRetryMsg (m : String) : Bool :=
  strContains m "JSONAdapter failed to parse" || strContains (pyLower m) "missing"

/-- The `for attempt in range(max_retries)` loop.  The remaining attempt
indices are the list argument; `attempt < max_retries - 1` is `rest ≠ []`.
Returns the outcome together with the number of planner calls made and the
seconds slept.  The `[]` case mirrors the post-loop
`raise Exception("Failed to get valid response ...")`, which is
unreachable because the final attempt re-raises inside the loop. -/
def planLoopAux (resp : Nat → PlannerResp) : List Nat → String → Except String PlanObj × Nat × Nat
  | [], lastErr =>
    (.error ("Failed to get valid response from LLM after 3 attempts. Last error: " ++ lastErr), 0, 0)
  | a :: rest, _ =>
    match planAttempt (resp a) with
    | .ok p => (.ok p, 1, 0)
    | .error m =>
      if isParseRetryMsg m && !rest.isEmpty then
        let r := planLoopAux resp rest m
        (r.1, r.2.1 + 1, r.2.2 + 1)
      else
        (.error m, 1, 0)

/-- The whole planning step of `ask_bot_core` (attempts 0, 1, 2). -/
def planLoop (resp : Nat → PlannerResp) : Except String PlanObj × Nat × Nat :=
  planLoopAux resp [0, 1, 2] ""

/-! ## Analytical engine model and `run_sql` (core.py lines 149-163)

DuckDB connections are modelled explicitly so that the read-only contract
is visible: `duckdb.connect(db_path, read_only=True)` yields a connection
that evaluates queries without touching the store and rejects write
statements, while a writable connection may replace the store.  The engine
behaviour itself (statement classification, query evaluation, rendering by
`pandas.DataFrame.to_markdown`) is external to the repository and is a
parameter. -/

/-- External behaviour of the analytical engine over an abstract store
type `Db`. -/
structure Engine (Db : Type) where
  isWriteStmt : String → Bool
  query : String → Db → Except String (List (List String))
  write : String → Db → Except String (List (List String)) × Db
  toMarkdown : List (List String) → String

/-- A DuckDB connection: the captured store plus its read-only flag. -/
structure Conn (Db : Type) where
  db : Db
  readOnly : Bool

/-- `duckdb.connect(db_path, read_only)`. -/
def duckConnect {Db : Type} (db : Db) (readOnly : Bool) : Conn Db :=
  ⟨db, readOnly⟩

/-- DuckDB's rejection of write statements on a read-only connection. -/
def readOnlyRejectMsg : String :=
  "Cannot execute a write statement in read-only mode"

/-- `con.execute(sql)`: read-only connections never change the store and
refuse write statements; writable connections defer to the engine. -/
def Conn.exec {Db : Type} (E : Engine Db) (c : Conn Db) (sql : String) :
    Except String (List (List String)) × Db :=
  if c.readOnly then
    if E.isWriteStmt sql then (.error readOnlyRejectMsg, c.db)
    else (E.query sql c.db, c.db)
  else
    E.write sql c.db

/-- Embedding of `run_sql`: open a read-only connection, execute, and
either return the rows with their rendering (`"*(no rows)*"` when empty)
or re-raise as `Exception(f"SQL Error: {e}\nSQL: {sql}")`.  The second
component is the store after the call. -/
def run_sql {Db : Type} (E : Engine Db) (db : Db) (sql : String) :
    Except String (List (List String) × String) × Db :=
  match Conn.exec E (duckConnect db true) sql with
  | (.error e, db2) => (.error ("SQL Error: " ++ e ++ "\nSQL: " ++ sql), db2)
  | (.ok rows, db2) =>
    (.ok (rows, if rows.isEmpty then "*(no rows)*" else E.toMarkdown rows), db2)

/-! ## Insight layer (core.py lines 737-754)

`generate_insight` builds `dspy.Predict(InsightFromResult)` and calls it
once.  There is no template tier anywhere in the source; the trace records
that the language-model tier ran and nothing else was consulted. -/

/-- The `InsightFromResult` output fields. -/
structure Insight where
  kpi_summary : String
  explanation : String
  action : String
deriving DecidableEq

/-- Which summarizer tiers ran during one `generate_insight` call. -/
structure InsightTrace where
  templateTierInvoked : Bool
  lmTierInvoked : Bool
deriving DecidableEq

/-- Embedding of `generate_insight`: exactly one predictor (language-model)
call; no template lookup exists in the source. -/
def generate_insight (lm : String → String → Insight) (question table_view : String) :
    Insight × InsightTrace :=
  (lm question table_view, { templateTierInvoked := false, lmTierInvoked := true })

/-! ## Orchestrator `ask_bot_core` (core.py lines 761-844) -/

/-- The external effects `ask_bot_core` depends on: the planner (per call
index), the analytical engine with its store, and the insight predictor. -/
structure Oracles (Db : Type) where
  planner : Nat → PlannerResp
  E : Engine Db
  db : Db
  lmInsight : String → String → Insight

/-- Observable effect counts of one `ask_bot_core` run. -/
structure AskTrace where
  plannerCalls : Nat
  executorCalls : Nat
  lmInsightCalls : Nat
  sleepSeconds : Nat
deriving DecidableEq

/-- `"ไม่พบข้อมูลในเงื่อนไขนี้"` — the graceful no-data explanation. -/
def noDataExplanation : String := "ไม่พบข้อมูลในเงื่อนไขนี้"

/-- `"ลองเปลี่ยนเดือน / ปี หรือเงื่อนไขดูอีกครั้ง"` — the graceful no-data action. -/
def noDataAction : String := "ลองเปลี่ยนเดือน / ปี หรือเงื่อนไขดูอีกครั้ง"

/-- Embedding of `ask_bot_core`.  The result is the returned dict (an
association list in literal key order) or the raised exception, plus the
effect trace.  After planning, the raw query is sanitized by `clean_sql`
and handed directly to `run_sql`; no table validation of any kind happens
in between (core.py lines 815-819). -/
def ask_bot_core {Db : Type} (o : Oracles Db) (question : String) :
    Except String (List (String × String)) × AskTrace :=
  match planLoop o.planner with
  | (.error m, calls, sleeps) => (.error m, ⟨calls, 0, 0, sleeps⟩)
  | (.ok plan, calls, sleeps) =>
    match (run_sql o.E o.db (clean_sql (plan.sql.getD ""))).1 with
    | .error e => (.error e, ⟨calls, 1, 0, sleeps⟩)
    | .ok (rows, table_view) =>
      if rows.isEmpty then
        (.ok [("question", question), ("intent", plan.intent.getD ""),
              ("sql", clean_sql (plan.sql.getD "")),
              ("table_view", table_view), ("kpi_summary", ""),
              ("explanation", noDataExplanation), ("action", noDataAction)],
         ⟨calls, 1, 0, sleeps⟩)
      else
        (.ok [("question", question), ("intent", plan.intent.getD ""),
              ("sql", clean_sql (plan.sql.getD "")),
              ("table_view", table_view),
              ("kpi_summary", (generate_insight o.lmInsight question table_view).1.kpi_summary),
              ("explanation", (generate_insight o.lmInsight question table_view).1.explanation),
              ("action", (generate_insight o.lmInsight question table_view).1.action)],
         ⟨calls, 1, 1, sleeps⟩)

/-! ## Session construction retry (core.py lines 48-94)

`_configure_lm_once` attempts `dspy.LM(...)` + `dspy.configure(lm=lm)` up
to `max_retries = 3` times.  On a rate-limit signal (`"429"` in the
message, or `"rate limit"`/`"quota"` in its lowercasing) and a non-final
attempt it sleeps `retry_delay * 2 ** attempt` seconds (2 then 4) and
retries; any other error, and a rate-limit error on the final attempt,
re-raises immediately.  The post-loop `raise last_error` is unreachable. -/

/-- The rate-limit detection predicate. -/
def isRateLimitMsg (m : String) : Bool :=
  strContains m "429" || strContains (pyLower m) "rate limit" || strContains (pyLower m) "quota"

/-- The construction retry loop over the remaining attempt indices,
returning the outcome, the number of construction attempts made, and the
seconds of backoff slept. -/
def configureLoopAux (c : Nat → Except String Unit) : List Nat → String → Except String Unit × Nat × Nat
  | [], lastErr => (.error lastErr, 0, 0)
  | a :: rest, _ =>
    match c a with
    | .ok _ => (.ok (), 1, 0)
    | .error m =>
      if isRateLimitMsg m && !rest.isEmpty then
        let r := configureLoopAux c rest m
        (r.1, r.2.1 + 1, r.2.2 + 2 * 2 ^ a)
      else
        (.error m, 1, 0)

/-- Embedding of `_configure_lm_once` (attempts 0, 1, 2). -/
def configureLoop (c : Nat → Except String Unit) : Except String Unit × Nat × Nat :=
  configureLoopAux c [0, 1, 2] ""

/-! ## Schema catalog and the (absent) validator -/

/-- The six datamart tables, as fixed by the `IntentAndSQL` signature
docstring in core.py and by the table set created in init_db.py. -/
def schemaCatalog : List String :=
  ["fact_registration", "fact_contract", "fact_inventory_snapshot",
   "dim_date", "dim_product", "dim_branch"]

/-- Identifier characters for the heuristic table scan (qualified names
keep their dots so the final segment can be taken). -/
def isIdentChar (c : Char) : Bool :=
  c.isAlphanum || c = '_' || c = '.'

/-- Split a character list into maximal identifier runs. -/
def tokenizeAux : List Char → List Char → List (List Char)
  | [], cur => if cur.isEmpty then [] else [cur.reverse]
  | c :: t, cur =>
    if isIdentChar c then tokenizeAux t (c :: cur)
    else if cur.isEmpty then tokenizeAux t [] else cur.reverse :: tokenizeAux t []

/-- The final segment of a possibly qualified name (after the last dot). -/
def lastSegment (tok : List Char) : List Char :=
  (tok.reverse.takeWhile (fun c => c ≠ '.')).reverse

/-- Collect the token following each `FROM`/`JOIN` keyword. -/
def extractTablesAux : List (List Char) → List (List Char)
  | kw :: n :: rest =>
    if kw.map Char.toLower = ['f', 'r', 'o', 'm'] || kw.map Char.toLower = ['j', 'o', 'i', 'n'] then
      lastSegment n :: extractTablesAux (n :: rest)
    else
      extractTablesAux (n :: rest)
  | _ => []

/-- Modelled from the spec: the Query Sanitizer & Validator's static table
extractor does not exist in the source (no validation code sits between
`clean_sql` and `run_sql` in core.py).  Per the spec it "extracts candidate
table identifiers from the query text using a lightweight structural scan
(matches identifiers following query source and join keywords), normalizes
qualified names to their final segment".  It is used here only to state
which tables a query references. -/
def extractTables (sql : String) : List String :=
  (extractTablesAux (tokenizeAux sql.toList [])).map String.mk

/-! ## Concrete oracles for counterexamples and witnesses -/

/-- An insight predictor returning empty fields. -/
def trivialInsight : String → String → Insight := fun _ _ => ⟨"", "", ""⟩

/-- Engine whose catalog lacks `fact_sales`: every query is rejected the
way DuckDB rejects an unknown table. -/
def c1Engine : Engine Nat where
  isWriteStmt := fun _ => false
  query := fun _ _ => .error "Catalog Error: Table with name fact_sales does not exist"
  write := fun _ db => (.error "", db)
  toMarkdown := fun _ => ""

/-- A run whose planner invents the nonexistent table `fact_sales`. -/
def c1Oracles : Oracles Nat where
  planner := fun _ => .ok ⟨some "SELECT * FROM fact_sales", some "sales_total"⟩
  E := c1Engine
  db := 0
  lmInsight := trivialInsight

/-- Engine rejecting the query at runtime with a binder error. -/
def c2Engine : Engine Nat where
  isWriteStmt := fun _ => false
  query := fun _ _ => .error "Binder Error: Referenced column qty not found"
  write := fun _ db => (.error "", db)
  toMarkdown := fun _ => ""

/-- A run whose query the engine rejects at runtime. -/
def c2Oracles : Oracles Nat where
  planner := fun _ => .ok ⟨some "SELECT qty FROM dim_product", some "stock_depth"⟩
  E := c2Engine
  db := 0
  lmInsight := trivialInsight

/-! ## C1 — validation before execution -/

/-- C1 (counterexample): the planned query `SELECT * FROM fact_sales`
references `fact_sales`, which is not in the schema catalog, yet the
Executor is invoked (once) and the run ends in a raised engine exception,
not an Invalid outcome: no validation exists between planning and
execution. -/
theorem c1_counterexample :
    schemaCatalog.contains "fact_sales" = false
    ∧ (extractTables "SELECT * FROM fact_sales").contains "fact_sales" = true
    ∧ (ask_bot_core c1Oracles "total sales").2.executorCalls = 1
    ∧ (ask_bot_core c1Oracles "total sales").1 =
        .error ("SQL Error: Catalog Error: Table with name fact_sales does not exist\nSQL: SELECT * FROM fact_sales") :=
  ⟨by decide, by decide, rfl, rfl⟩

/-- C1 (amended): there is no pre-execution validation: whenever planning
succeeds — whatever tables the query references — the Executor is invoked
exactly once on the sanitized query, and an engine rejection propagates as
a raised exception rather than a structured Invalid outcome. -/
theorem c1_executor_always_invoked {Db : Type} (o : Oracles Db) (q : String)
    (p : PlanObj) (calls sleeps : Nat)
    (hplan : planLoop o.planner = (.ok p, calls, sleeps)) :
    (ask_bot_core o q).2.executorCalls = 1
    ∧ ∀ e, (run_sql o.E o.db (clean_sql (p.sql.getD ""))).1 = .error e →
        (ask_bot_core o q).1 = .error e := by
  unfold ask_bot_core
  simp only [hplan]
  constructor
  · cases hr : (run_sql o.E o.db (clean_sql (p.sql.getD ""))).1 with
    | error e => simp [hr]
    | ok v =>
      obtain ⟨rows, view⟩ := v
      by_cases he : rows.isEmpty <;> simp [hr, he]
  · intro e he
    simp [he]

/-- C1 (witness): the amended theorem applied to the `fact_sales` run. -/
theorem c1_witness :
    (ask_bot_core c1Oracles "total sales").2.executorCalls = 1
    ∧ (ask_bot_core c1Oracles "total sales").1 =
        .error ("SQL Error: Catalog Error: Table with name fact_sales does not exist\nSQL: SELECT * FROM fact_sales") :=
  ⟨(c1_executor_always_invoked c1Oracles "total sales"
      ⟨some "SELECT * FROM fact_sales", some "sales_total"⟩ 1 0 rfl).1,
   (c1_executor_always_invoked c1Oracles "total sales"
      ⟨some "SELECT * FROM fact_sales", some "sales_total"⟩ 1 0 rfl).2 _ rfl⟩

/-! ## C2 — error flag and in-band structured errors -/

/-- C2 (counterexample): when the engine rejects the query at runtime,
`ask_bot_core` does not return a structured result with `error_flag=true`:
it raises.  The run ends in the raw `SQL Error` exception. -/
theorem c2_counterexample :
    (ask_bot_core c2Oracles "stock depth").1 =
      .error ("SQL Error: Binder Error: Referenced column qty not found\nSQL: SELECT qty FROM dim_product") :=
  rfl

/-- C2 (amended): the returned dict carries no `error_flag` key at all —
every result `ask_bot_core` returns (it only returns on successful
execution) lacks the key — and validation/execution failure surfaces as a
raised exception carrying the underlying message, never as an in-band
structured result. -/
theorem c2_error_contract {Db : Type} (o : Oracles Db) (q : String) :
    (∀ r t, ask_bot_core o q = (.ok r, t) → List.lookup "error_flag" r = none)
    ∧ (∀ p calls sleeps e, planLoop o.planner = (.ok p, calls, sleeps) →
        (run_sql o.E o.db (clean_sql (p.sql.getD ""))).1 = .error e →
        (ask_bot_core o q).1 = .error e) := by
  constructor
  · intro r t h
    unfold ask_bot_core at h
    split at h
    · simp at h
    · split at h
      · simp at h
      · split at h <;> (cases h; rfl)
  · intro p calls sleeps e hplan he
    unfold ask_bot_core
    simp [hplan, he]

/-- C2 (witness): the amended contract applied to the binder-error run and
to its exception message. -/
theorem c2_witness :
    (ask_bot_core c2Oracles "stock depth").1 =
      .error ("SQL Error: Binder Error: Referenced column qty not found\nSQL: SELECT qty FROM dim_product") :=
  (c2_error_contract c2Oracles "stock depth").2
    ⟨some "SELECT qty FROM dim_product", some "stock_depth"⟩ 1 0 _ rfl rfl

/-! ## C5 — graceful empty path -/

/-- Engine executing successfully with zero rows. -/
def emptyEngine : Engine Nat where
  isWriteStmt := fun _ => false
  query := fun _ _ => .ok []
  write := fun _ db => (.error "", db)
  toMarkdown := fun _ => ""

/-- A run whose query succeeds but matches no rows. -/
def emptyOracles : Oracles Nat where
  planner := fun _ => .ok ⟨some "SELECT * FROM fact_contract WHERE 1 = 0", some "daily_sales"⟩
  E := emptyEngine
  db := 0
  lmInsight := trivialInsight

/-- C5 (counterexample): on a successful zero-row execution the returned
dict has empty `kpi_summary` and the non-empty guidance strings, but it
contains no `error_flag` key at all — there is no `error_flag=false` field
in the result, the error-free case is signalled only by returning
normally. -/
theorem c5_counterexample :
    (ask_bot_core emptyOracles "sales today").1 =
      .ok [("question", "sales today"), ("intent", "daily_sales"),
           ("sql", "SELECT * FROM fact_contract WHERE 1 = 0"),
           ("table_view", "*(no rows)*"), ("kpi_summary", ""),
           ("explanation", noDataExplanation), ("action", noDataAction)]
    ∧ List.lookup "error_flag"
        [("question", "sales today"), ("intent", "daily_sales"),
         ("sql", "SELECT * FROM fact_contract WHERE 1 = 0"),
         ("table_view", "*(no rows)*"), ("kpi_summary", ""),
         ("explanation", noDataExplanation), ("action", noDataAction)] = none :=
  ⟨rfl, rfl⟩

/-- C5 (amended): every query that executes successfully with zero rows
yields a normally returned result (no exception) whose `kpi_summary` is
empty and whose `explanation` and `action` are the fixed non-empty
guidance strings; the result has no `error_flag` key, and the
language-model insight tier is not consulted. -/
theorem c5_graceful_empty {Db : Type} (o : Oracles Db) (q : String)
    (p : PlanObj) (calls sleeps : Nat) (view : String)
    (hplan : planLoop o.planner = (.ok p, calls, sleeps))
    (hexec : (run_sql o.E o.db (clean_sql (p.sql.getD ""))).1 = .ok ([], view)) :
    (ask_bot_core o q).1 =
      .ok [("question", q), ("intent", p.intent.getD ""),
           ("sql", clean_sql (p.sql.getD "")), ("table_view", view),
           ("kpi_summary", ""), ("explanation", noDataExplanation),
           ("action", noDataAction)]
    ∧ List.lookup "error_flag"
        [("question", q), ("intent", p.intent.getD ""),
         ("sql", clean_sql (p.sql.getD "")), ("table_view", view),
         ("kpi_summary", ""), ("explanation", noDataExplanation),
         ("action", noDataAction)] = none
    ∧ noDataExplanation ≠ "" ∧ noDataAction ≠ ""
    ∧ (ask_bot_core o q).2.lmInsightCalls = 0 := by
  refine ⟨?_, rfl, by decide, by decide, ?_⟩ <;>
    · unfold ask_bot_core
      simp [hplan, hexec]

/-- C5 (witness): the amended theorem applied to the zero-row run. -/
theorem c5_witness :
    (ask_bot_core emptyOracles "sales today").1 =
      .ok [("question", "sales today"), ("intent", "daily_sales"),
           ("sql", clean_sql "SELECT * FROM fact_contract WHERE 1 = 0"),
           ("table_view", "*(no rows)*"), ("kpi_summary", ""),
           ("explanation", noDataExplanation), ("action", noDataAction)] :=
  (c5_graceful_empty emptyOracles "sales today"
    ⟨some "SELECT * FROM fact_contract WHERE 1 = 0", some "daily_sales"⟩
    1 0 "*(no rows)*" rfl rfl).1

/-! ## C8 — template tier before language-model tier -/

/-- Engine returning one row. -/
def okEngine : Engine Nat where
  isWriteStmt := fun _ => false
  query := fun _ _ => .ok [["BR-001", "99"]]
  write := fun _ db => (.error "", db)
  toMarkdown := fun _ => "| BR-001 | 99 |"

/-- Insight predictor used in the C8 run. -/
def c8Insight : String → String → Insight :=
  fun _ _ => ⟨"Top branch BR-001", "BR-001 sold 99 units", "Restock BR-001"⟩

/-- A run with the known trainset intent `best_branch_mtd` and a one-row
result. -/
def c8Oracles : Oracles Nat where
  planner := fun _ =>
    .ok ⟨some "SELECT branch_code FROM fact_contract", some "best_branch_mtd"⟩
  E := okEngine
  db := 0
  lmInsight := c8Insight

/-- C8 (counterexample): for the known intent `best_branch_mtd` with a
matching one-row result, the language-model insight tier IS invoked — and
the `generate_insight` call consults no template tier at all (none exists
in the source), so the invocation is not guarded by a template decline. -/
theorem c8_counterexample :
    (ask_bot_core c8Oracles "best branch").2.lmInsightCalls = 1
    ∧ (generate_insight c8Insight "best branch" "| BR-001 | 99 |").2.templateTierInvoked = false
    ∧ (generate_insight c8Insight "best branch" "| BR-001 | 99 |").2.lmTierInvoked = true :=
  ⟨rfl, rfl, rfl⟩

/-- C8 (amended): the summarizer has a single tier: for every request whose
query succeeds with a non-empty result — whatever the intent — the
language-model insight tier is invoked exactly once, no template tier is
ever consulted, and the returned fields come verbatim from that
language-model call. -/
theorem c8_lm_tier_always {Db : Type} (o : Oracles Db) (q : String)
    (p : PlanObj) (calls sleeps : Nat) (rows : List (List String)) (view : String)
    (hplan : planLoop o.planner = (.ok p, calls, sleeps))
    (hexec : (run_sql o.E o.db (clean_sql (p.sql.getD ""))).1 = .ok (rows, view))
    (hne : rows ≠ []) :
    (ask_bot_core o q).2.lmInsightCalls = 1
    ∧ (generate_insight o.lmInsight q view).2.templateTierInvoked = false
    ∧ (ask_bot_core o q).1 =
        .ok [("question", q), ("intent", p.intent.getD ""),
             ("sql", clean_sql (p.sql.getD "")), ("table_view", view),
             ("kpi_summary", (o.lmInsight q view).kpi_summary),
             ("explanation", (o.lmInsight q view).explanation),
             ("action", (o.lmInsight q view).action)] := by
  have hne' : rows.isEmpty = false := by
    cases rows with
    | nil => exact absurd rfl hne
    | cons a t => rfl
  refine ⟨?_, rfl, ?_⟩ <;>
    · unfold ask_bot_core
      simp [hplan, hexec, hne', generate_insight]

/-- C8 (witness): the amended theorem applied to the `best_branch_mtd`
run. -/
theorem c8_witness :
    (ask_bot_core c8Oracles "best branch").2.lmInsightCalls = 1
    ∧ (generate_insight c8Oracles.lmInsight "best branch" "| BR-001 | 99 |").2.templateTierInvoked = false :=
  ⟨(c8_lm_tier_always c8Oracles "best branch"
      ⟨some "SELECT branch_code FROM fact_contract", some "best_branch_mtd"⟩
      1 0 [["BR-001", "99"]] "| BR-001 | 99 |" rfl rfl (by decide)).1,
   (c8_lm_tier_always c8Oracles "best branch"
      ⟨some "SELECT branch_code FROM fact_contract", some "best_branch_mtd"⟩
      1 0 [["BR-001", "99"]] "| BR-001 | 99 |" rfl rfl (by decide)).2.1⟩

/-! ## C9 — read-only executor -/

/-- C9: `run_sql` opens its connection with `read_only=True`, so the store
after any call is unchanged, and any statement the engine classifies as a
write is rejected with a `SQL Error` exception instead of being executed. -/
theorem c9_executor_read_only {Db : Type} (E : Engine Db) (db : Db) (sql : String) :
    (run_sql E db sql).2 = db
    ∧ (E.isWriteStmt sql = true →
        (run_sql E db sql).1 =
          .error ("SQL Error: " ++ readOnlyRejectMsg ++ "\nSQL: " ++ sql)) := by
  refine ⟨?_, fun h => by simp [run_sql, Conn.exec, duckConnect, h]⟩
  by_cases h : E.isWriteStmt sql = true
  · simp [run_sql, Conn.exec, duckConnect, h]
  · cases hq : E.query sql db with
    | error e => simp [run_sql, Conn.exec, duckConnect, h, hq]
    | ok rows => simp [run_sql, Conn.exec, duckConnect, h, hq]

/-- Engine that would mutate the store on a write statement. -/
def writeEngine : Engine Nat where
  isWriteStmt := fun _ => true
  query := fun _ _ => .ok []
  write := fun _ db => (.ok [], db + 1)
  toMarkdown := fun _ => ""

/-- C9 (witness): the read-only theorem applied to a write statement on a
mutation-capable engine: the store stays `0` and the statement is
rejected. -/
theorem c9_witness :
    (run_sql writeEngine 0 "DROP TABLE dim_product").2 = 0
    ∧ (run_sql writeEngine 0 "DROP TABLE dim_product").1 =
        .error ("SQL Error: " ++ readOnlyRejectMsg ++ "\nSQL: DROP TABLE dim_product") :=
  ⟨(c9_executor_read_only writeEngine 0 "DROP TABLE dim_product").1,
   (c9_executor_read_only writeEngine 0 "DROP TABLE dim_product").2 rfl⟩

/-! ## C10 — missing intent accepted with default "unknown" -/

/-- Any result `ask_bot_core` returns comes from a successful planning
step, and its `intent` entry is the accepted plan's (defaulted) intent. -/
theorem ask_ok_lookup_intent {Db : Type} (o : Oracles Db) (q : String) :
    ∀ r t, ask_bot_core o q = (.ok r, t) →
      ∃ plan calls sleeps, planLoop o.planner = (.ok plan, calls, sleeps)
        ∧ List.lookup "intent" r = some (plan.intent.getD "") := by
  intro r t h
  unfold ask_bot_core at h
  split at h
  · simp at h
  · rename_i plan calls sleeps heq
    refine ⟨plan, calls, sleeps, heq, ?_⟩
    split at h
    · simp at h
    · split at h <;> (cases h; rfl)

/-- C10: a planner response with a non-empty `sql` but a missing or empty
`intent` is accepted on that same attempt — one planner call, no sleep —
with the intent defaulted to `"unknown"`, and any returned result carries
`intent = "unknown"`. -/
theorem c10_missing_intent_accepted {Db : Type} (o : Oracles Db) (q sqlStr : String)
    (hs : sqlStr ≠ "")
    (h0 : o.planner 0 = .ok ⟨some sqlStr, none⟩ ∨ o.planner 0 = .ok ⟨some sqlStr, some ""⟩) :
    planLoop o.planner = (.ok ⟨some sqlStr, some "unknown"⟩, 1, 0)
    ∧ ∀ r t, ask_bot_core o q = (.ok r, t) → List.lookup "intent" r = some "unknown" := by
  have hplan : planLoop o.planner = (.ok ⟨some sqlStr, some "unknown"⟩, 1, 0) := by
    rcases h0 with h0 | h0 <;>
      simp [planLoop, planLoopAux, planAttempt, validatePlan, h0, hs]
  refine ⟨hplan, ?_⟩
  intro r t h
  obtain ⟨plan, calls, sleeps, heq, hlk⟩ := ask_ok_lookup_intent o q r t h
  rw [hplan] at heq
  have hp : plan = ⟨some sqlStr, some "unknown"⟩ := by
    simp only [Prod.mk.injEq] at heq
    exact (Except.ok.inj heq.1).symm
  rw [hp] at hlk
  simpa using hlk

/-- A run whose planner omits the `intent` field. -/
def c10Oracles : Oracles Nat where
  planner := fun _ => .ok ⟨some "SELECT 1", none⟩
  E := okEngine
  db := 0
  lmInsight := trivialInsight

/-- C10 (witness): the theorem applied to a planner response with `sql`
present and `intent` absent. -/
theorem c10_witness :
    planLoop c10Oracles.planner = (.ok ⟨some "SELECT 1", some "unknown"⟩, 1, 0) :=
  (c10_missing_intent_accepted c10Oracles "one" "SELECT 1" (by decide) (Or.inl rfl)).1

/-! ## C6 — planner retry policy -/

/-- Structural bounds on the planning loop: one planner call per executed
attempt, one second slept before every resubmission, at most one call per
remaining attempt index. -/
theorem planLoopAux_shape (resp : Nat → PlannerResp) :
    ∀ (l : List Nat) (e : String), l ≠ [] →
      (planLoopAux resp l e).2.2 + 1 = (planLoopAux resp l e).2.1
      ∧ 1 ≤ (planLoopAux resp l e).2.1
      ∧ (planLoopAux resp l e).2.1 ≤ l.length := by
  intro l
  induction l with
  | nil => intro e h; exact absurd rfl h
  | cons a rest ih =>
    intro e _
    cases hA : planAttempt (resp a) with
    | ok p => simp [planLoopAux, hA]
    | error m =>
      by_cases hc : (isParseRetryMsg m && !rest.isEmpty) = true
      · have hrest : rest ≠ [] := by
          intro hr
          rw [hr] at hc
          simp at hc
        obtain ⟨ih1, ih2, ih3⟩ := ih m hrest
        simp only [planLoopAux, hA, hc, if_true, List.length_cons]
        omega
      · simp [planLoopAux, hA, hc]

/-- C6: the planning step makes at most 3 attempts, sleeping one second
before each resubmission (slept seconds = calls − 1); a valid response on
any attempt is returned as the accepted plan; retries happen only on
parse/incomplete-response errors; after exhausting the attempts the loop
fails carrying the last attempt's underlying error; and a non-parse error
fails immediately with no retry — on the first attempt, and equally after
an earlier parse-error retry (no further attempt, no further sleep). -/
theorem c6_planner_retry_policy (resp : Nat → PlannerResp) :
    ((planLoop resp).2.2 + 1 = (planLoop resp).2.1
      ∧ 1 ≤ (planLoop resp).2.1 ∧ (planLoop resp).2.1 ≤ 3)
    ∧ (∀ p, planAttempt (resp 0) = .ok p → planLoop resp = (.ok p, 1, 0))
    ∧ (∀ m0 p, planAttempt (resp 0) = .error m0 → isParseRetryMsg m0 = true →
        planAttempt (resp 1) = .ok p → planLoop resp = (.ok p, 2, 1))
    ∧ (∀ m0 m1 p, planAttempt (resp 0) = .error m0 → isParseRetryMsg m0 = true →
        planAttempt (resp 1) = .error m1 → isParseRetryMsg m1 = true →
        planAttempt (resp 2) = .ok p → planLoop resp = (.ok p, 3, 2))
    ∧ (∀ m0 m1 m2, planAttempt (resp 0) = .error m0 → isParseRetryMsg m0 = true →
        planAttempt (resp 1) = .error m1 → isParseRetryMsg m1 = true →
        planAttempt (resp 2) = .error m2 → planLoop resp = (.error m2, 3, 2))
    ∧ (∀ m0, planAttempt (resp 0) = .error m0 → isParseRetryMsg m0 = false →
        planLoop resp = (.error m0, 1, 0))
    ∧ (∀ m0 m1, planAttempt (resp 0) = .error m0 → isParseRetryMsg m0 = true →
        planAttempt (resp 1) = .error m1 → isParseRetryMsg m1 = false →
        planLoop resp = (.error m1, 2, 1)) := by
  refine ⟨?_, ?_, ?_, ?_, ?_, ?_, ?_⟩
  · simpa using planLoopAux_shape resp [0, 1, 2] "" (by simp)
  · intro p h0
    simp [planLoop, planLoopAux, h0]
  · intro m0 p h0 hr0 h1
    simp [planLoop, planLoopAux, h0, hr0, h1]
  · intro m0 m1 p h0 hr0 h1 hr1 h2
    simp [planLoop, planLoopAux, h0, hr0, h1, hr1, h2]
  · intro m0 m1 m2 h0 hr0 h1 hr1 h2
    simp [planLoop, planLoopAux, h0, hr0, h1, hr1, h2]
  · intro m0 h0 hr0
    simp [planLoop, planLoopAux, h0, hr0]
  · intro m0 m1 h0 hr0 h1 hr1
    simp [planLoop, planLoopAux, h0, hr0, h1, hr1]

/-- A planner that raises a parse error, then returns a plan missing
`sql`, then a valid plan. -/
def c6Resp : Nat → PlannerResp
  | 0 => .raised "JSONAdapter failed to parse LM response"
  | 1 => .ok ⟨none, some "intent_only"⟩
  | _ => .ok ⟨some "SELECT 42", some "answer"⟩

/-- C6 (witness): parse failure, then a missing-`sql` response, then a
valid plan — accepted on attempt 3 after two one-second pauses. -/
theorem c6_witness :
    planLoop c6Resp = (.ok ⟨some "SELECT 42", some "answer"⟩, 3, 2) :=
  (c6_planner_retry_policy c6Resp).2.2.2.1
    "JSONAdapter failed to parse LM response" missingSqlMsg
    ⟨some "SELECT 42", some "answer"⟩
    rfl (by decide) rfl (by decide) rfl

/-! ## C7 — session construction retry with exponential backoff -/

/-- C7: session construction makes at most 3 attempts; a rate-limit signal
on a non-final attempt backs off 2·2^attempt seconds (2 then 4) before
retrying, so a construction that hits rate limits twice and succeeds on
the third attempt completes after exactly 3 attempts and 2+4 seconds of
backoff; any non-rate-limit error fails immediately with no further
attempt and no backoff. -/
theorem c7_session_retry (c : Nat → Except String Unit) :
    ((configureLoop c).2.1 ≤ 3)
    ∧ (c 0 = .ok () → configureLoop c = (.ok (), 1, 0))
    ∧ (∀ m0, c 0 = .error m0 → isRateLimitMsg m0 = true → c 1 = .ok () →
        configureLoop c = (.ok (), 2, 2))
    ∧ (∀ m0 m1, c 0 = .error m0 → isRateLimitMsg m0 = true →
        c 1 = .error m1 → isRateLimitMsg m1 = true → c 2 = .ok () →
        configureLoop c = (.ok (), 3, 6))
    ∧ (∀ m0, c 0 = .error m0 → isRateLimitMsg m0 = false →
        configureLoop c = (.error m0, 1, 0))
    ∧ (∀ m0 m1, c 0 = .error m0 → isRateLimitMsg m0 = true →
        c 1 = .error m1 → isRateLimitMsg m1 = false →
        configureLoop c = (.error m1, 2, 2))
    ∧ (∀ m0 m1 m2, c 0 = .error m0 → isRateLimitMsg m0 = true →
        c 1 = .error m1 → isRateLimitMsg m1 = true → c 2 = .error m2 →
        configureLoop c = (.error m2, 3, 6)) := by
  refine ⟨?_, ?_, ?_, ?_, ?_, ?_, ?_⟩
  · cases h0 : c 0 with
    | ok u => simp [configureLoop, configureLoopAux, h0]
    | error m0 =>
      by_cases hr0 : isRateLimitMsg m0 = true
      · cases h1 : c 1 with
        | ok u => simp [configureLoop, configureLoopAux, h0, hr0, h1]
        | error m1 =>
          by_cases hr1 : isRateLimitMsg m1 = true
          · cases h2 : c 2 with
            | ok u => simp [configureLoop, configureLoopAux, h0, hr0, h1, hr1, h2]
            | error m2 => simp [configureLoop, configureLoopAux, h0, hr0, h1, hr1, h2]
          · simp [configureLoop, configureLoopAux, h0, hr0, h1, hr1]
      · simp [configureLoop, configureLoopAux, h0, hr0]
  · intro h0
    simp [configureLoop, configureLoopAux, h0]
  · intro m0 h0 hr0 h1
    simp [configureLoop, configureLoopAux, h0, hr0, h1]
  · intro m0 m1 h0 hr0 h1 hr1 h2
    simp [configureLoop, configureLoopAux, h0, hr0, h1, hr1, h2]
  · intro m0 h0 hr0
    simp [configureLoop, configureLoopAux, h0, hr0]
  · intro m0 m1 h0 hr0 h1 hr1
    simp [configureLoop, configureLoopAux, h0, hr0, h1, hr1]
  · intro m0 m1 m2 h0 hr0 h1 hr1 h2
    simp [configureLoop, configureLoopAux, h0, hr0, h1, hr1, h2]

/-- A client construction that is rate-limited twice and then succeeds. -/
def c7Construct : Nat → Except String Unit
  | 0 => .error "429 Resource has been exhausted"
  | 1 => .error "Rate limit exceeded for quota group"
  | _ => .ok ()

/-- C7 (witness): rate-limited twice, success on the third attempt, after
exactly 2+4 seconds of backoff. -/
theorem c7_witness : configureLoop c7Construct = (.ok (), 3, 6) :=
  (c7_session_retry c7Construct).2.2.2.1
    "429 Resource has been exhausted" "Rate limit exceeded for quota group"
    rfl (by decide) rfl (by decide) rfl

end Chatbot
